import Mathlib

/-!
# Verification of the clutter-android input-event core

Shallow embedding of the event subsystem of the `clutter-android` repository:

* `src/clutter/clutter-event.c` — event accessors, allocation/copy, the
  backend event queue, click-sequence synthesis and keysym→unicode lookup;
* `src/clutter/android/clutter-android-application.c` — the lifecycle
  command dispatcher and the two native-input translators.

C machine integers are modelled as `Nat` (unsigned) and `Int` (signed);
the `ClutterEvent` union is modelled as a flat record carrying the union's
field pool together with the `type` tag, exactly as a C union assignment
copies the whole memory block.  External collaborators (stage, input
devices, the GLib main loop, the process) are modelled as opaque handles
and as explicit effect lists.
-/

/-- Event kinds, following the `ClutterEventType` enumeration (the header
is not part of the excerpt; the constructor set is the one used by
`clutter-event.c` and the android backend). `CLUTTER_NOTHING` is the zero
value produced by zero-initialisation. -/
inductive ClutterEventType
  | CLUTTER_NOTHING
  | CLUTTER_KEY_PRESS
  | CLUTTER_KEY_RELEASE
  | CLUTTER_MOTION
  | CLUTTER_BUTTON_PRESS
  | CLUTTER_2BUTTON_PRESS
  | CLUTTER_3BUTTON_PRESS
  | CLUTTER_BUTTON_RELEASE
  | CLUTTER_SCROLL
  | CLUTTER_STAGE_STATE
  | CLUTTER_DESTROY_NOTIFY
  | CLUTTER_CLIENT_MESSAGE
  | CLUTTER_DELETE
deriving DecidableEq, Repr

/-- The `ClutterEvent` union, flattened: every variant reads its fields out
of the shared pool, and the `type` tag selects the active variant (the C
union's variant structs alias the same storage, and `*new = *old` copies
the whole block).  Stage and device references are opaque handles. -/
structure ClutterEvent where
  type : ClutterEventType
  flags : Nat
  stage : Nat
  time : Nat
  modifier_state : Nat
  x : Int
  y : Int
  button : Nat
  click_count : Nat
  device : Nat
  keyval : Nat
  hardware_keycode : Nat
  unicode_value : Nat
deriving DecidableEq, Repr

/-- `CLUTTER_CURRENT_TIME` (from `clutter-main.h`, not in the excerpt): the
conventional "no timestamp" value, 0. -/
def CLUTTER_CURRENT_TIME : Nat := 0

/-- `CLUTTER_BUTTON1_MASK` (from the modifier-mask enumeration, not in the
excerpt): the GDK-style button-1 modifier bit, `1 <<< 8`. -/
def CLUTTER_BUTTON1_MASK : Nat := 256

/-- The all-zero event produced by `g_slice_new0`. -/
def zeroClutterEvent : ClutterEvent :=
  { type := .CLUTTER_NOTHING, flags := 0, stage := 0, time := 0,
    modifier_state := 0, x := 0, y := 0, button := 0, click_count := 0,
    device := 0, keyval := 0, hardware_keycode := 0, unicode_value := 0 }

/-- `clutter_event_get_time`: switch on the event type, reading the
variant's `time` field; unhandled types fall through to the default and
return `CLUTTER_CURRENT_TIME`. -/
def clutter_event_get_time (event : ClutterEvent) : Nat :=
  match event.type with
  | .CLUTTER_KEY_PRESS | .CLUTTER_KEY_RELEASE => event.time
  | .CLUTTER_BUTTON_PRESS | .CLUTTER_2BUTTON_PRESS | .CLUTTER_BUTTON_RELEASE => event.time
  | .CLUTTER_MOTION => event.time
  | .CLUTTER_SCROLL => event.time
  | _ => CLUTTER_CURRENT_TIME

/-- `clutter_event_get_state`: switch on the event type, reading the
variant's `modifier_state`; unhandled types return 0. -/
def clutter_event_get_state (event : ClutterEvent) : Nat :=
  match event.type with
  | .CLUTTER_KEY_PRESS | .CLUTTER_KEY_RELEASE => event.modifier_state
  | .CLUTTER_BUTTON_PRESS | .CLUTTER_2BUTTON_PRESS | .CLUTTER_BUTTON_RELEASE => event.modifier_state
  | .CLUTTER_MOTION => event.modifier_state
  | .CLUTTER_SCROLL => event.modifier_state
  | _ => 0

/-- `clutter_event_get_coords`: `event_x`/`event_y` start at 0 and are only
assigned in the handled cases; the pair written through the out-parameters
is returned. -/
def clutter_event_get_coords (event : ClutterEvent) : Int × Int :=
  match event.type with
  | .CLUTTER_KEY_PRESS | .CLUTTER_KEY_RELEASE => (0, 0)
  | .CLUTTER_BUTTON_PRESS | .CLUTTER_2BUTTON_PRESS | .CLUTTER_BUTTON_RELEASE =>
      (event.x, event.y)
  | .CLUTTER_MOTION => (event.x, event.y)
  | .CLUTTER_SCROLL => (event.x, event.y)
  | _ => (0, 0)

/-- The heap of event objects together with the live-set registry
(`event_hash`): `events` maps identities to their current contents, `live`
is the registered identity set, `next` the next fresh identity. -/
structure EventStore where
  events : Nat → ClutterEvent
  live : List Nat
  next : Nat

/-- `clutter_event_new`: `g_slice_new0`, set the type (and flags to
`CLUTTER_EVENT_NONE`), register the identity in the hash; returns the
updated store and the new identity. -/
def clutter_event_new (s : EventStore) (t : ClutterEventType) : EventStore × Nat :=
  ({ events := fun j => if j = s.next then { zeroClutterEvent with type := t } else s.events j,
     live := s.next :: s.live,
     next := s.next + 1 }, s.next)

/-- `clutter_event_copy`: allocate a fresh `CLUTTER_NOTHING` event, then
struct-assign the whole source event over it (`*new_event = *event`). -/
def clutter_event_copy (s : EventStore) (event : Nat) : EventStore × Nat :=
  let alloc := clutter_event_new s .CLUTTER_NOTHING
  ({ alloc.1 with
      events := fun j => if j = alloc.2 then s.events event else alloc.1.events j },
   alloc.2)

/-- `clutter_event_free`: deregister the identity from the hash and release
the slot (the contents are left in place; the identity is simply no longer
live). -/
def clutter_event_free (s : EventStore) (event : Nat) : EventStore :=
  { s with live := s.live.filter (fun j => j ≠ event) }

/-- Overwrite a (live) event object in place — the generic mutation used to
state independence of a copy from its source. -/
def event_store_write (s : EventStore) (event : Nat) (v : ClutterEvent) : EventStore :=
  { s with events := fun j => if j = event then v else s.events j }

/-- The `ClutterBackend` fields used by `clutter-event.c` (the struct
declaration lives in a header outside the excerpt; field names and uses are
those of the source).  `events_queue` is the lazily created `GQueue`
(`none` until the first push); the `GQueue` itself is a list whose head is
the queue's head end.  Slot component `.1` is index 0 (most recent press),
`.2` is index 1. -/
structure ClutterBackend where
  events_queue : Option (List ClutterEvent)
  button_click_time : Nat × Nat
  button_number : Int × Int
  button_x : Int × Int
  button_y : Int × Int
  double_click_time : Nat
  double_click_distance : Int

/-- `_clutter_event_queue_push`: create the queue if absent, then
`g_queue_push_head` (insert at the front of the list). -/
def _clutter_event_queue_push (backend : ClutterBackend) (event : ClutterEvent) :
    ClutterBackend :=
  match backend.events_queue with
  | none => { backend with events_queue := some [event] }
  | some q => { backend with events_queue := some (event :: q) }

/-- `_clutter_event_queue_pop`: `NULL` if the queue was never created, else
`g_queue_pop_tail` — remove and return the last list element (`none` when
empty). -/
def _clutter_event_queue_pop (backend : ClutterBackend) :
    Option ClutterEvent × ClutterBackend :=
  match backend.events_queue with
  | none => (none, backend)
  | some q => (q.getLast?, { backend with events_queue := some q.dropLast })

/-- `_clutter_event_queue_peek`: `g_queue_peek_tail` without removal. -/
def _clutter_event_queue_peek (backend : ClutterBackend) : Option ClutterEvent :=
  match backend.events_queue with
  | none => none
  | some q => q.getLast?

/-- `_clutter_event_queue_check_pending`. -/
def _clutter_event_queue_check_pending (backend : ClutterBackend) : Bool :=
  match backend.events_queue with
  | none => false
  | some q => !q.isEmpty

/-- `_clutter_synthesize_click`: copy the event into `temp_event`, override
the type according to `n_clicks`, and hand it to
`clutter_backend_put_event` (an external collaborator; the produced event
is the observable effect). -/
def _clutter_synthesize_click (event : ClutterEvent) (n_clicks : Nat) : ClutterEvent :=
  { event with
      type := if n_clicks = 2 then .CLUTTER_2BUTTON_PRESS else .CLUTTER_3BUTTON_PRESS }

/-- `_clutter_event_button_generate`: the click-sequence synthesizer.  The
guard arithmetic follows the C source: `time < click_time + 2 * interval`
over the unsigned time values, button comparison against the (possibly
`-1`-sentinel) recorded number, and `ABS (coordinate difference) <=
double_click_distance`.  Returns the updated backend and the synthetic
event handed to `clutter_backend_put_event`, if any. -/
def _clutter_event_button_generate (backend : ClutterBackend) (event : ClutterEvent) :
    ClutterBackend × Option ClutterEvent :=
  if event.time < backend.button_click_time.2 + 2 * backend.double_click_time
     ∧ (event.button : Int) = backend.button_number.2
     ∧ |event.x - backend.button_x.2| ≤ backend.double_click_distance
     ∧ |event.y - backend.button_y.2| ≤ backend.double_click_distance then
    ({ backend with
        button_click_time := (0, 0),
        button_number := (-1, -1),
        button_x := (0, 0),
        button_y := (0, 0) },
     some (_clutter_synthesize_click event 3))
  else if event.time < backend.button_click_time.1 + backend.double_click_time
     ∧ (event.button : Int) = backend.button_number.1
     ∧ |event.x - backend.button_x.1| ≤ backend.double_click_distance
     ∧ |event.y - backend.button_y.1| ≤ backend.double_click_distance then
    ({ backend with
        button_click_time := (event.time, backend.button_click_time.1),
        button_number := ((event.button : Int), backend.button_number.1),
        button_x := (event.x, backend.button_x.1),
        button_y := (event.y, backend.button_y.1) },
     some (_clutter_synthesize_click event 2))
  else
    ({ backend with
        button_click_time := (event.time, 0),
        button_number := ((event.button : Int), -1),
        button_x := (event.x, 0),
        button_y := (event.y, 0) },
     none)

/-- One recorded press of the click state — the spec's ClickState slot
(timestamp, button index, x, y). -/
structure ClickSlot where
  time : Nat
  button : Int
  x : Int
  y : Int
deriving DecidableEq, Repr

/-- The spec's empty slot: sentinel button index `-1`, zeroed data. -/
def emptyClickSlot : ClickSlot := { time := 0, button := -1, x := 0, y := 0 }

/-- Slot 0 (most recent press) of a backend's click state. -/
def backendSlot0 (backend : ClutterBackend) : ClickSlot :=
  { time := backend.button_click_time.1, button := backend.button_number.1,
    x := backend.button_x.1, y := backend.button_y.1 }

/-- Slot 1 (the press before that) of a backend's click state. -/
def backendSlot1 (backend : ClutterBackend) : ClickSlot :=
  { time := backend.button_click_time.2, button := backend.button_number.2,
    x := backend.button_x.2, y := backend.button_y.2 }

/-- Write a pair of click slots back into the backend fields. -/
def backendWithSlots (backend : ClutterBackend) (s0 s1 : ClickSlot) : ClutterBackend :=
  { backend with
      button_click_time := (s0.time, s1.time),
      button_number := (s0.button, s1.button),
      button_x := (s0.x, s1.x),
      button_y := (s0.y, s1.y) }

/-- The click-sequence transition rule exactly as the spec words it
(§4.3): given new press P and slots S0/S1, branch 1 (triple, tested first,
window `2×DoubleClickInterval` against S1, `t − S1.time` read as integer
subtraction) emits a TripleButtonPress copy of P and resets both slots;
branch 2 (double, window `1×DoubleClickInterval` against S0) emits a
DoubleButtonPress, shifts S0 into S1 and stores P in S0; branch 3 clears S1
and stores P in S0. -/
def clickSequenceSpec (interval : Nat) (distance : Int) (s0 s1 : ClickSlot)
    (P : ClutterEvent) : (ClickSlot × ClickSlot) × Option ClutterEvent :=
  if (P.time : Int) - s1.time < 2 * interval
     ∧ (P.button : Int) = s1.button
     ∧ |P.x - s1.x| ≤ distance
     ∧ |P.y - s1.y| ≤ distance then
    ((emptyClickSlot, emptyClickSlot), some { P with type := .CLUTTER_3BUTTON_PRESS })
  else if (P.time : Int) - s0.time < (interval : Int)
     ∧ (P.button : Int) = s0.button
     ∧ |P.x - s0.x| ≤ distance
     ∧ |P.y - s0.y| ≤ distance then
    (({ time := P.time, button := (P.button : Int), x := P.x, y := P.y }, s0),
     some { P with type := .CLUTTER_2BUTTON_PRESS })
  else
    (({ time := P.time, button := (P.button : Int), x := P.x, y := P.y }, emptyClickSlot),
     none)

/-- One client operation on the event queue. -/
inductive QueueOp
  | push (event : ClutterEvent)
  | pop
deriving Repr

/-- Run a sequence of queue operations against a backend, recording each
pop's result. -/
def runQueueOps : List QueueOp → ClutterBackend → ClutterBackend × List (Option ClutterEvent)
  | [], backend => (backend, [])
  | QueueOp.push e :: ops, backend => runQueueOps ops (_clutter_event_queue_push backend e)
  | QueueOp.pop :: ops, backend =>
      let popped := _clutter_event_queue_pop backend
      let rest := runQueueOps ops popped.2
      (rest.1, popped.1 :: rest.2)

/-- The abstract FIFO of the spec: the state lists pending events oldest
first; push appends, pop takes the oldest (head) and returns `none` on an
empty queue. -/
def fifoRun : List QueueOp → List ClutterEvent → List ClutterEvent × List (Option ClutterEvent)
  | [], pending => (pending, [])
  | QueueOp.push e :: ops, pending => fifoRun ops (pending ++ [e])
  | QueueOp.pop :: ops, [] =>
      let rest := fifoRun ops []
      (rest.1, none :: rest.2)
  | QueueOp.pop :: ops, x :: xs =>
      let rest := fifoRun ops xs
      (rest.1, some x :: rest.2)

/-- The android lifecycle commands of `android_native_app_glue`. -/
inductive AndroidAppCmd
  | APP_CMD_INIT_WINDOW
  | APP_CMD_TERM_WINDOW
  | APP_CMD_GAINED_FOCUS
  | APP_CMD_WINDOW_RESIZED
  | APP_CMD_WINDOW_REDRAW_NEEDED
  | APP_CMD_CONTENT_RECT_CHANGED
  | APP_CMD_LOST_FOCUS
  | APP_CMD_START
  | APP_CMD_STOP
  | APP_CMD_PAUSE
  | APP_CMD_DESTROY
deriving DecidableEq, Repr

/-- The native window handle: only its queried dimensions matter here. -/
structure ANativeWindow where
  width : Int
  height : Int
deriving DecidableEq, Repr

/-- The `android_app` glue record as read by the dispatcher: the (possibly
absent) native window. -/
structure AndroidApp where
  window : Option ANativeWindow
deriving DecidableEq, Repr

/-- The `ClutterAndroidApplication` state touched by the dispatcher:
`have_window` and whether the "wait for window" main loop handle
(`wait_for_window`) is currently active. -/
structure ClutterAndroidApplication where
  have_window : Bool
  wait_for_window : Bool
deriving DecidableEq, Repr

/-- External collaborators consulted by the dispatcher: the result of the
`READY` signal emission and the default stage's current size. -/
structure AndroidDispatchEnv where
  ready_accepted : Bool
  stage_width : Int
  stage_height : Int
deriving DecidableEq, Repr

/-- Observable actions the dispatcher performs on its collaborators, in
program order. -/
inductive DispatchEffect
  | setWindowFlags
  | emitReady
  | wakeWaiter
  | clutterMainQuit
  | exitProcess (code : Int)
  | setStageSize (w h : Int)
  | updateOnscreenSize (w h : Int)
  | queueRelayout
deriving DecidableEq, Repr

/-- `clutter_android_handle_cmd`: the lifecycle command dispatcher.
Returns the updated application state and the effect trace.  Note that in
the `APP_CMD_TERM_WINDOW` arm `exit (0)` sits after the `if`/`else`, so it
runs on both paths; and that the `APP_CMD_WINDOW_RESIZED` arm calls
`clutter_actor_set_size` unconditionally, while only the
`APP_CMD_WINDOW_REDRAW_NEEDED` arm compares the window dimensions with the
stage size before resizing the onscreen surface and queueing a relayout. -/
def clutter_android_handle_cmd (app : AndroidApp)
    (application : ClutterAndroidApplication) (env : AndroidDispatchEnv)
    (cmd : AndroidAppCmd) : ClutterAndroidApplication × List DispatchEffect :=
  match cmd with
  | .APP_CMD_INIT_WINDOW =>
      match app.window with
      | some _ =>
          ((if env.ready_accepted then { application with have_window := true }
            else application),
           [DispatchEffect.setWindowFlags, DispatchEffect.emitReady]
             ++ (if application.wait_for_window then [DispatchEffect.wakeWaiter] else []))
      | none => (application, [])
  | .APP_CMD_TERM_WINDOW =>
      (application,
       (if application.wait_for_window then [DispatchEffect.wakeWaiter]
        else [DispatchEffect.clutterMainQuit])
         ++ [DispatchEffect.exitProcess 0])
  | .APP_CMD_WINDOW_RESIZED =>
      match app.window with
      | some w => (application, [DispatchEffect.setStageSize w.width w.height])
      | none => (application, [])
  | .APP_CMD_WINDOW_REDRAW_NEEDED =>
      match app.window with
      | some w =>
          (application,
           if env.stage_width ≠ w.width ∨ env.stage_height ≠ w.height then
             [DispatchEffect.updateOnscreenSize w.width w.height,
              DispatchEffect.queueRelayout]
           else [])
      | none => (application, [])
  | _ => (application, [])

/-- `AMOTION_EVENT_ACTION_MASK` (NDK `android/input.h`). -/
def AMOTION_EVENT_ACTION_MASK : Nat := 0xff

/-- `AMOTION_EVENT_ACTION_DOWN`. -/
def AMOTION_EVENT_ACTION_DOWN : Nat := 0

/-- `AMOTION_EVENT_ACTION_UP`. -/
def AMOTION_EVENT_ACTION_UP : Nat := 1

/-- `AMOTION_EVENT_ACTION_MOVE`. -/
def AMOTION_EVENT_ACTION_MOVE : Nat := 2

/-- `AKEY_STATE_UP` (NDK `android/input.h`). -/
def AKEY_STATE_UP : Int := 0

/-- `AKEY_STATE_DOWN`. -/
def AKEY_STATE_DOWN : Int := 1

/-- `AKEY_STATE_VIRTUAL`. -/
def AKEY_STATE_VIRTUAL : Int := 2

/-- A native `AInputEvent` record, with the fields the two translators
query: motion action bits, event timestamp, pointer coordinates, key code
and meta state. -/
structure AInputEvent where
  action : Nat
  eventTime : Nat
  x : Int
  y : Int
  keyCode : Nat
  metaState : Int
deriving DecidableEq, Repr

/-- `translate_motion_event`: switch on `action & AMOTION_EVENT_ACTION_MASK`;
Down/Up produce a button press/release with button hard-coded to 1 and
click count 1, Move produces a motion event whose modifier state is
hard-coded to `CLUTTER_BUTTON1_MASK`; all three stamp the platform
timestamp and coordinates; any other action returns `FALSE` (the event is
dropped).  `pointer_device` is the core pointer handle obtained from the
device manager. -/
def translate_motion_event (event : ClutterEvent) (a_event : AInputEvent)
    (pointer_device : Nat) : Option ClutterEvent :=
  if a_event.action &&& AMOTION_EVENT_ACTION_MASK = AMOTION_EVENT_ACTION_DOWN then
    some { event with
            type := .CLUTTER_BUTTON_PRESS, button := 1, click_count := 1,
            device := pointer_device, time := a_event.eventTime,
            x := a_event.x, y := a_event.y }
  else if a_event.action &&& AMOTION_EVENT_ACTION_MASK = AMOTION_EVENT_ACTION_UP then
    some { event with
            type := .CLUTTER_BUTTON_RELEASE, button := 1, click_count := 1,
            device := pointer_device, time := a_event.eventTime,
            x := a_event.x, y := a_event.y }
  else if a_event.action &&& AMOTION_EVENT_ACTION_MASK = AMOTION_EVENT_ACTION_MOVE then
    some { event with
            type := .CLUTTER_MOTION, device := pointer_device,
            modifier_state := CLUTTER_BUTTON1_MASK, time := a_event.eventTime,
            x := a_event.x, y := a_event.y }
  else
    none

/-- `translate_key_event`: store the key code into `key.unicode_value`,
then switch on the state read from the record's meta-state field:
`AKEY_STATE_UP` gives a key release, `AKEY_STATE_DOWN` and
`AKEY_STATE_VIRTUAL` both give a key press, anything else returns `FALSE`
(the event is dropped).  The platform timestamp and modifier state are
never written into the event. -/
def translate_key_event (event : ClutterEvent) (a_event : AInputEvent) :
    Option ClutterEvent :=
  let event := { event with unicode_value := a_event.keyCode }
  if a_event.metaState = AKEY_STATE_UP then
    some { event with type := .CLUTTER_KEY_RELEASE }
  else if a_event.metaState = AKEY_STATE_DOWN ∨ a_event.metaState = AKEY_STATE_VIRTUAL then
    some { event with type := .CLUTTER_KEY_PRESS }
  else
    none

/-- The `while (max >= min)` binary-search loop of
`clutter_keysym_to_unicode`, on `int` bounds exactly as in the source:
`mid = (min + max) / 2`; move `min` past `mid` when the probed keysym is
too small, move `max` below `mid` when it is too large, return the `ucs`
field on a hit; fall out with 0 when the window empties.  The table is an
argument (`clutter_keysym_to_unicode_tab` lives in
`clutter-keysyms-table.h`, outside the excerpt); entries are
(keysym, ucs) pairs. -/
def keysym_to_unicode_loop (tab : Array (Nat × Nat)) (keyval : Nat)
    (min max : Int) : Nat :=
  if _h : max ≥ min then
    let mid := (min + max) / 2
    if (tab.getD mid.toNat (0, 0)).1 < keyval then
      keysym_to_unicode_loop tab keyval (mid + 1) max
    else if keyval < (tab.getD mid.toNat (0, 0)).1 then
      keysym_to_unicode_loop tab keyval min (mid - 1)
    else
      (tab.getD mid.toNat (0, 0)).2
  else 0
termination_by (max + 1 - min).toNat
decreasing_by
  · simp only [mid] at *; omega
  · simp only [mid] at *; omega

/-- `clutter_keysym_to_unicode`: Latin-1 fast path, then the directly
encoded 24-bit UCS fast path, then binary search over the whole table
(`min = 0`, `max = G_N_ELEMENTS - 1`), 0 when nothing matches. -/
def clutter_keysym_to_unicode (tab : Array (Nat × Nat)) (keyval : Nat) : Nat :=
  if (0x20 ≤ keyval ∧ keyval ≤ 0x7e) ∨ (0xa0 ≤ keyval ∧ keyval ≤ 0xff) then
    keyval
  else if keyval &&& 0xff000000 = 0x01000000 then
    keyval &&& 0x00ffffff
  else
    keysym_to_unicode_loop tab keyval 0 ((tab.size : Int) - 1)

/-- `Modelled from the spec:` the static keysym table of
`clutter-keysyms-table.h` is not part of the excerpt; per §9 it is "a
sorted static table", which we state as strict ascent of the keysym column
over indices. -/
def KeysymTableSorted (tab : Array (Nat × Nat)) : Prop :=
  ∀ i j : Nat, i < j → j < tab.size →
    (tab.getD i (0, 0)).1 < (tab.getD j (0, 0)).1

/-! ## Theorems -/

/-- C1 (amended): a `WindowTerminate` command wakes the waiter when the
"wait for window" handle is active and stops the run loop otherwise, but in
*both* cases it then terminates the process: the `exit (0)` call sits after
the `if`/`else` and runs unconditionally. -/
theorem term_window_always_exits (app : AndroidApp)
    (application : ClutterAndroidApplication) (env : AndroidDispatchEnv) :
    clutter_android_handle_cmd app application env .APP_CMD_TERM_WINDOW =
      (application,
       (if application.wait_for_window then [DispatchEffect.wakeWaiter]
        else [DispatchEffect.clutterMainQuit])
         ++ [DispatchEffect.exitProcess 0]) := rfl

/-- C1 counterexample: with the "wait for window" handle active,
`WindowTerminate` still terminates the process — the effect trace both
wakes the waiter and exits, refuting "wakes the waiter and does not
terminate the process". -/
theorem term_window_exits_even_while_waiting :
    ({ have_window := false, wait_for_window := true } :
        ClutterAndroidApplication).wait_for_window = true
    ∧ DispatchEffect.exitProcess 0 ∈
        (clutter_android_handle_cmd { window := none }
          { have_window := false, wait_for_window := true }
          { ready_accepted := true, stage_width := 0, stage_height := 0 }
          .APP_CMD_TERM_WINDOW).2 := by decide

/-- C8 (amended): with a native window present, `WindowRedrawNeeded`
resizes the onscreen surface and queues a relayout exactly when the native
window dimensions differ from the recorded stage size, while
`WindowResized` unconditionally sets the stage size to the native window
dimensions (no comparison, no surface resize, no relayout request);
without a native window both commands are no-ops. -/
theorem resized_redraw_behaviour (app : AndroidApp)
    (application : ClutterAndroidApplication) (env : AndroidDispatchEnv) :
    (clutter_android_handle_cmd app application env .APP_CMD_WINDOW_RESIZED =
      (application,
       match app.window with
       | some w => [DispatchEffect.setStageSize w.width w.height]
       | none => []))
    ∧ (clutter_android_handle_cmd app application env .APP_CMD_WINDOW_REDRAW_NEEDED =
      (application,
       match app.window with
       | some w =>
           if env.stage_width ≠ w.width ∨ env.stage_height ≠ w.height then
             [DispatchEffect.updateOnscreenSize w.width w.height,
              DispatchEffect.queueRelayout]
           else []
       | none => [])) := by
  obtain ⟨win⟩ := app
  constructor <;> cases win <;> rfl

/-- C8 counterexample: window present with dimensions 100×200 while the
stage records 50×60 — the dimensions differ, yet `WindowResized` performs a
stage `set_size`, not the claimed surface resize and relayout request. -/
theorem window_resized_ignores_stage_size :
    (clutter_android_handle_cmd { window := some { width := 100, height := 200 } }
        { have_window := true, wait_for_window := false }
        { ready_accepted := true, stage_width := 50, stage_height := 60 }
        .APP_CMD_WINDOW_RESIZED).2
      = [DispatchEffect.setStageSize 100 200]
    ∧ [DispatchEffect.setStageSize 100 200]
      ≠ [DispatchEffect.updateOnscreenSize 100 200, DispatchEffect.queueRelayout] := by
  decide

/-- C10: the accessor switches do not list `CLUTTER_3BUTTON_PRESS`, so a
triple-press event falls through to the defaults (`CLUTTER_CURRENT_TIME`,
0, (0, 0)), while a `CLUTTER_2BUTTON_PRESS` event yields the stored button
time, modifier state and coordinates. -/
theorem triple_press_accessors_fall_through (e : ClutterEvent) :
    (e.type = ClutterEventType.CLUTTER_3BUTTON_PRESS →
      clutter_event_get_time e = CLUTTER_CURRENT_TIME ∧
      clutter_event_get_state e = 0 ∧
      clutter_event_get_coords e = (0, 0))
    ∧ (e.type = ClutterEventType.CLUTTER_2BUTTON_PRESS →
      clutter_event_get_time e = e.time ∧
      clutter_event_get_state e = e.modifier_state ∧
      clutter_event_get_coords e = (e.x, e.y)) := by
  constructor <;> intro h <;>
    simp [clutter_event_get_time, clutter_event_get_state,
          clutter_event_get_coords, h]

/-- C10 witness: the accessor defaults on a concrete triple press (with
nonzero stored fields) and the stored values on the matching double
press. -/
theorem triple_press_accessors_fall_through_witness :
    (clutter_event_get_time
        { zeroClutterEvent with
            type := .CLUTTER_3BUTTON_PRESS, time := 42, modifier_state := 7,
            x := 3, y := 4 } = CLUTTER_CURRENT_TIME
      ∧ clutter_event_get_state
          { zeroClutterEvent with
              type := .CLUTTER_3BUTTON_PRESS, time := 42, modifier_state := 7,
              x := 3, y := 4 } = 0
      ∧ clutter_event_get_coords
          { zeroClutterEvent with
              type := .CLUTTER_3BUTTON_PRESS, time := 42, modifier_state := 7,
              x := 3, y := 4 } = (0, 0))
    ∧ (clutter_event_get_time
        { zeroClutterEvent with
            type := .CLUTTER_2BUTTON_PRESS, time := 42, modifier_state := 7,
            x := 3, y := 4 } = 42
      ∧ clutter_event_get_state
          { zeroClutterEvent with
              type := .CLUTTER_2BUTTON_PRESS, time := 42, modifier_state := 7,
              x := 3, y := 4 } = 7
      ∧ clutter_event_get_coords
          { zeroClutterEvent with
              type := .CLUTTER_2BUTTON_PRESS, time := 42, modifier_state := 7,
              x := 3, y := 4 } = (3, 4)) :=
  ⟨(triple_press_accessors_fall_through _).1 rfl,
   (triple_press_accessors_fall_through _).2 rfl⟩

/-- C5: copying an allocated event yields a new identity whose contents
equal the source field-for-field, and overwriting the copy (with any
value, hence any field mutation) leaves the source event untouched. -/
theorem clutter_event_copy_roundtrip_independent (s : EventStore) (event : Nat)
    (h : event < s.next) (v : ClutterEvent) :
    ((clutter_event_copy s event).1.events (clutter_event_copy s event).2
       = s.events event)
    ∧ (clutter_event_copy s event).2 ≠ event
    ∧ ((event_store_write (clutter_event_copy s event).1
          (clutter_event_copy s event).2 v).events event = s.events event) := by
  have hne : event ≠ s.next := by omega
  refine ⟨?_, ?_, ?_⟩ <;>
    simp [clutter_event_copy, clutter_event_new, event_store_write, hne,
          Ne.symm hne]

/-- C5 witness: a singleton store (one allocated event at identity 0);
copying it, then clobbering the copy, leaves the original's fields
intact. -/
theorem clutter_event_copy_roundtrip_witness :
    ((0 : Nat) < ({ events := fun _ => zeroClutterEvent, live := [0], next := 1 } :
        EventStore).next)
    ∧ (((clutter_event_copy
          { events := fun _ => zeroClutterEvent, live := [0], next := 1 } 0).1.events
          (clutter_event_copy
            { events := fun _ => zeroClutterEvent, live := [0], next := 1 } 0).2
          = ({ events := fun _ => zeroClutterEvent, live := [0], next := 1 } :
              EventStore).events 0)
        ∧ (clutter_event_copy
            { events := fun _ => zeroClutterEvent, live := [0], next := 1 } 0).2 ≠ 0
        ∧ ((event_store_write
              (clutter_event_copy
                { events := fun _ => zeroClutterEvent, live := [0], next := 1 } 0).1
              (clutter_event_copy
                { events := fun _ => zeroClutterEvent, live := [0], next := 1 } 0).2
              { zeroClutterEvent with time := 99 }).events 0
            = ({ events := fun _ => zeroClutterEvent, live := [0], next := 1 } :
                EventStore).events 0)) :=
  ⟨by decide,
   clutter_event_copy_roundtrip_independent _ 0 (by decide)
     { zeroClutterEvent with time := 99 }⟩

/-- C2 (amended): an accepted motion record gets the platform timestamp
verbatim, but the modifier state is never taken from the record — press and
release leave the event's prior modifier state, and move hard-codes the
button-1 mask; an accepted key record gets neither the platform timestamp
nor the platform modifier state (both keep the event's prior values; the
record's meta state is consumed only to choose press versus release). -/
theorem translators_timestamp_modifier_handling (event : ClutterEvent)
    (a_event : AInputEvent) (pointer_device : Nat) :
    (∀ ev, translate_motion_event event a_event pointer_device = some ev →
      ev.time = a_event.eventTime ∧
      ev.modifier_state =
        (if a_event.action &&& AMOTION_EVENT_ACTION_MASK = AMOTION_EVENT_ACTION_MOVE
         then CLUTTER_BUTTON1_MASK else event.modifier_state))
    ∧ (∀ ev, translate_key_event event a_event = some ev →
      ev.time = event.time ∧ ev.modifier_state = event.modifier_state) := by
  constructor
  · intro ev hev
    unfold translate_motion_event at hev
    split_ifs at hev with h1 h2 h3
    · cases hev
      simp [h1, AMOTION_EVENT_ACTION_DOWN, AMOTION_EVENT_ACTION_MOVE]
    · cases hev
      simp [h2, AMOTION_EVENT_ACTION_UP, AMOTION_EVENT_ACTION_MOVE]
    · cases hev
      simp [h3]
  · intro ev hev
    unfold translate_key_event at hev
    split_ifs at hev <;> cases hev <;> simp

/-- C2 counterexample: a key record carrying platform timestamp 100 is
accepted (meta state `AKEY_STATE_UP`), yet the produced event's timestamp
is the event's prior value 0, not the record's 100. -/
theorem key_translator_drops_platform_timestamp :
    (translate_key_event zeroClutterEvent
        { action := 0, eventTime := 100, x := 0, y := 0, keyCode := 7,
          metaState := 0 } ≠ none)
    ∧ ((translate_key_event zeroClutterEvent
          { action := 0, eventTime := 100, x := 0, y := 0, keyCode := 7,
            metaState := 0 }).map ClutterEvent.time
        ≠ some ({ action := 0, eventTime := 100, x := 0, y := 0, keyCode := 7,
                  metaState := 0 } : AInputEvent).eventTime) := by
  decide

/-- C2 witness: the amended statement at an accepted move record (modifier
state hard-coded to the button-1 mask, timestamp copied) — the hypotheses
of both conjuncts are discharged on concrete accepted records. -/
theorem translators_timestamp_modifier_witness :
    (({ zeroClutterEvent with
          type := .CLUTTER_MOTION, device := 3,
          modifier_state := CLUTTER_BUTTON1_MASK, time := 55, x := 1,
          y := 2 } : ClutterEvent).time = 55
      ∧ ({ zeroClutterEvent with
            type := .CLUTTER_MOTION, device := 3,
            modifier_state := CLUTTER_BUTTON1_MASK, time := 55, x := 1,
            y := 2 } : ClutterEvent).modifier_state =
          (if (2 : Nat) &&& AMOTION_EVENT_ACTION_MASK = AMOTION_EVENT_ACTION_MOVE
           then CLUTTER_BUTTON1_MASK else zeroClutterEvent.modifier_state))
    ∧ (({ zeroClutterEvent with
            unicode_value := 7, type := .CLUTTER_KEY_RELEASE } : ClutterEvent).time
          = zeroClutterEvent.time
      ∧ ({ zeroClutterEvent with
            unicode_value := 7, type := .CLUTTER_KEY_RELEASE } : ClutterEvent).modifier_state
          = zeroClutterEvent.modifier_state) :=
  ⟨(translators_timestamp_modifier_handling zeroClutterEvent
      { action := 2, eventTime := 55, x := 1, y := 2, keyCode := 0, metaState := 9 }
      3).1 _ rfl,
   (translators_timestamp_modifier_handling zeroClutterEvent
      { action := 0, eventTime := 100, x := 0, y := 0, keyCode := 7, metaState := 0 }
      3).2 _ rfl⟩

/-- C6: a motion record whose masked action is none of Down/Up/Move is
rejected (`none`); a Down record at time 100, (10, 20) yields a
`CLUTTER_BUTTON_PRESS` with button 1, click count 1, time 100 and
coordinates (10, 20). -/
theorem motion_translation_cases (event : ClutterEvent) (a_event : AInputEvent)
    (pointer_device : Nat) :
    (a_event.action &&& AMOTION_EVENT_ACTION_MASK ≠ AMOTION_EVENT_ACTION_DOWN →
     a_event.action &&& AMOTION_EVENT_ACTION_MASK ≠ AMOTION_EVENT_ACTION_UP →
     a_event.action &&& AMOTION_EVENT_ACTION_MASK ≠ AMOTION_EVENT_ACTION_MOVE →
     translate_motion_event event a_event pointer_device = none)
    ∧ (a_event.action = AMOTION_EVENT_ACTION_DOWN → a_event.eventTime = 100 →
       a_event.x = 10 → a_event.y = 20 →
       translate_motion_event event a_event pointer_device =
         some { event with
                 type := .CLUTTER_BUTTON_PRESS, button := 1, click_count := 1,
                 device := pointer_device, time := 100, x := 10, y := 20 }) := by
  constructor
  · intro h1 h2 h3
    simp [translate_motion_event, h1, h2, h3]
  · intro ha ht hx hy
    simp [translate_motion_event, ha, ht, hx, hy,
          AMOTION_EVENT_ACTION_DOWN, AMOTION_EVENT_ACTION_MASK]

/-- C6 witness: a concrete unrecognized action (7) is dropped and a
concrete Down record is translated to the expected button press. -/
theorem motion_translation_cases_witness :
    translate_motion_event zeroClutterEvent
        { action := 7, eventTime := 0, x := 0, y := 0, keyCode := 0, metaState := 0 }
        3 = none
    ∧ translate_motion_event zeroClutterEvent
        { action := 0, eventTime := 100, x := 10, y := 20, keyCode := 0, metaState := 0 }
        3 =
        some { zeroClutterEvent with
                type := .CLUTTER_BUTTON_PRESS, button := 1, click_count := 1,
                device := 3, time := 100, x := 10, y := 20 } :=
  ⟨(motion_translation_cases zeroClutterEvent
      { action := 7, eventTime := 0, x := 0, y := 0, keyCode := 0, metaState := 0 }
      3).1 (by decide) (by decide) (by decide),
   (motion_translation_cases zeroClutterEvent
      { action := 0, eventTime := 100, x := 10, y := 20, keyCode := 0, metaState := 0 }
      3).2 rfl rfl rfl rfl⟩

/-- C7: the key translator maps meta-state `AKEY_STATE_UP` to a key
release, `AKEY_STATE_DOWN` to a key press, treats `AKEY_STATE_VIRTUAL`
exactly like `AKEY_STATE_DOWN` (the very same single press event — no
synthetic release), and rejects every other state value. -/
theorem key_translation_state_mapping (event : ClutterEvent)
    (a_event : AInputEvent) :
    ((translate_key_event event { a_event with metaState := AKEY_STATE_UP }).map
        ClutterEvent.type = some ClutterEventType.CLUTTER_KEY_RELEASE)
    ∧ ((translate_key_event event { a_event with metaState := AKEY_STATE_DOWN }).map
        ClutterEvent.type = some ClutterEventType.CLUTTER_KEY_PRESS)
    ∧ (translate_key_event event { a_event with metaState := AKEY_STATE_VIRTUAL }
        = translate_key_event event { a_event with metaState := AKEY_STATE_DOWN })
    ∧ (∀ s : Int, s ≠ AKEY_STATE_UP → s ≠ AKEY_STATE_DOWN → s ≠ AKEY_STATE_VIRTUAL →
        translate_key_event event { a_event with metaState := s } = none) := by
  refine ⟨?_, ?_, ?_, ?_⟩
  · simp [translate_key_event, AKEY_STATE_UP]
  · simp [translate_key_event, AKEY_STATE_UP, AKEY_STATE_DOWN]
  · simp [translate_key_event, AKEY_STATE_UP, AKEY_STATE_DOWN, AKEY_STATE_VIRTUAL]
  · intro s h1 h2 h3
    simp [translate_key_event, h1, h2, h3]

/-- C7 witness: the state mapping at a concrete record, including rejection
of the unknown state `-1` (`AKEY_STATE_UNKNOWN`). -/
theorem key_translation_state_mapping_witness :
    ((translate_key_event zeroClutterEvent
        { action := 0, eventTime := 0, x := 0, y := 0, keyCode := 9,
          metaState := AKEY_STATE_UP }).map ClutterEvent.type
      = some ClutterEventType.CLUTTER_KEY_RELEASE)
    ∧ translate_key_event zeroClutterEvent
        { action := 0, eventTime := 0, x := 0, y := 0, keyCode := 9,
          metaState := -1 } = none :=
  ⟨(key_translation_state_mapping zeroClutterEvent
      { action := 0, eventTime := 0, x := 0, y := 0, keyCode := 9,
        metaState := AKEY_STATE_UP }).1,
   (key_translation_state_mapping zeroClutterEvent
      { action := 0, eventTime := 0, x := 0, y := 0, keyCode := 9,
        metaState := -1 }).2.2.2 (-1) (by decide) (by decide) (by decide)⟩

/-- The C guard `time < recorded + window` over unsigned values is the
spec's integer-subtraction window `time − recorded < window` (triple-click
case, window `2 × interval`). -/
theorem click_window_iff_two (t s i : Nat) :
    ((t : Int) - (s : Int) < 2 * (i : Int)) ↔ (t < s + 2 * i) := by omega

/-- Same bridge for the double-click case (window `1 × interval`). -/
theorem click_window_iff_one (t s i : Nat) :
    ((t : Int) - (s : Int) < (i : Int)) ↔ (t < s + i) := by omega

/-- C3: `_clutter_event_button_generate` implements exactly the spec's
three-branch, order-sensitive click rule: triple first (window
`2×DoubleClickInterval` against slot 1, same button, both coordinate
deltas within ClickDistance) emitting a TripleButtonPress copy of P and
resetting both slots; else double (window `1×DoubleClickInterval` against
slot 0) emitting a DoubleButtonPress and shifting S0 into S1 with P stored
in S0; else no synthetic event, S1 cleared and P stored in S0. -/
theorem button_generate_follows_click_rule (backend : ClutterBackend)
    (event : ClutterEvent) :
    _clutter_event_button_generate backend event =
      (backendWithSlots backend
        (clickSequenceSpec backend.double_click_time backend.double_click_distance
          (backendSlot0 backend) (backendSlot1 backend) event).1.1
        (clickSequenceSpec backend.double_click_time backend.double_click_distance
          (backendSlot0 backend) (backendSlot1 backend) event).1.2,
       (clickSequenceSpec backend.double_click_time backend.double_click_distance
          (backendSlot0 backend) (backendSlot1 backend) event).2) := by
  simp only [clickSequenceSpec, backendSlot0, backendSlot1, backendWithSlots,
    click_window_iff_two, click_window_iff_one, _clutter_event_button_generate,
    _clutter_synthesize_click, emptyClickSlot]
  split_ifs <;> first | rfl | omega

/-- Pushing corresponds, through the oldest-first abstraction (the stored
list reversed), to appending at the young end. -/
theorem queue_rep_push (backend : ClutterBackend) (l : List ClutterEvent)
    (e : ClutterEvent) (h : (backend.events_queue.getD []).reverse = l) :
    ((_clutter_event_queue_push backend e).events_queue.getD []).reverse = l ++ [e] := by
  unfold _clutter_event_queue_push
  cases hq : backend.events_queue with
  | none =>
      rw [hq] at h
      simp at h
      subst h
      simp
  | some q =>
      rw [hq] at h
      simp at h
      simp [← h]

/-- Popping corresponds, through the same abstraction, to taking the head
of the oldest-first list. -/
theorem queue_rep_pop (backend : ClutterBackend) (l : List ClutterEvent)
    (h : (backend.events_queue.getD []).reverse = l) :
    (_clutter_event_queue_pop backend).1 = l.head?
    ∧ (((_clutter_event_queue_pop backend).2.events_queue.getD []).reverse = l.tail) := by
  unfold _clutter_event_queue_pop
  cases hq : backend.events_queue with
  | none =>
      rw [hq] at h
      simp at h
      subst h
      simp [hq]
  | some q =>
      rw [hq] at h
      constructor
      · simp [← h, List.head?_reverse]
      · simp [← h, ← List.tail_reverse]

/-- The queue of `clutter-event.c`, run against any operation sequence,
produces exactly the outputs of the abstract oldest-first FIFO. -/
theorem runQueueOps_refines_fifo (ops : List QueueOp) :
    ∀ (backend : ClutterBackend) (l : List ClutterEvent),
      (backend.events_queue.getD []).reverse = l →
      (runQueueOps ops backend).2 = (fifoRun ops l).2
      ∧ (((runQueueOps ops backend).1.events_queue.getD []).reverse
          = (fifoRun ops l).1) := by
  induction ops with
  | nil => intro backend l h; simpa [runQueueOps, fifoRun] using h
  | cons op ops ih =>
      intro backend l h
      cases op with
      | push e =>
          simpa [runQueueOps, fifoRun] using ih _ _ (queue_rep_push backend l e h)
      | pop =>
          obtain ⟨h1, h2⟩ := queue_rep_pop backend l h
          obtain ⟨o1, o2⟩ := ih (_clutter_event_queue_pop backend).2 l.tail h2
          cases l with
          | nil => simp_all [runQueueOps, fifoRun]
          | cons x xs => simp_all [runQueueOps, fifoRun]

/-- Leading pushes only transfer their events into the abstract pending
list. -/
theorem fifoRun_pushes (l : List ClutterEvent) :
    ∀ (ops : List QueueOp) (acc : List ClutterEvent),
      fifoRun (l.map QueueOp.push ++ ops) acc = fifoRun ops (acc ++ l) := by
  induction l with
  | nil => intro ops acc; simp
  | cons e l ih =>
      intro ops acc
      have hl : (e :: l).map QueueOp.push ++ ops
          = QueueOp.push e :: (l.map QueueOp.push ++ ops) := by simp
      rw [hl]
      show fifoRun (l.map QueueOp.push ++ ops) (acc ++ [e]) = fifoRun ops (acc ++ e :: l)
      rw [ih]
      simp

/-- Popping as many times as there are pending events returns them all, in
order. -/
theorem fifoRun_pops (l : List ClutterEvent) :
    fifoRun (List.replicate l.length QueueOp.pop) l = ([], l.map some) := by
  induction l with
  | nil => simp [fifoRun]
  | cons x xs ih => simp [List.replicate_succ, fifoRun, ih]

/-- C4: starting from a backend with no queue, (a) any interleaving of
pushes and pops observes exactly the abstract strict-FIFO semantics,
(b) pushes of P1..Pn followed by n pops return P1..Pn in insertion order,
and (c) popping an absent or empty queue returns `none`. -/
theorem event_queue_fifo :
    (∀ (ops : List QueueOp) (backend : ClutterBackend),
       backend.events_queue = none →
       (runQueueOps ops backend).2 = (fifoRun ops []).2)
    ∧ (∀ (l : List ClutterEvent) (backend : ClutterBackend),
       backend.events_queue = none →
       (runQueueOps (l.map QueueOp.push ++ List.replicate l.length QueueOp.pop)
          backend).2 = l.map some)
    ∧ (∀ backend : ClutterBackend,
       backend.events_queue = none ∨ backend.events_queue = some [] →
       (_clutter_event_queue_pop backend).1 = none) := by
  refine ⟨?_, ?_, ?_⟩
  · intro ops backend h
    exact (runQueueOps_refines_fifo ops backend [] (by simp [h])).1
  · intro l backend h
    rw [(runQueueOps_refines_fifo _ backend [] (by simp [h])).1,
        fifoRun_pushes, List.nil_append, fifoRun_pops]
  · intro backend h
    rcases h with h | h <;> simp [_clutter_event_queue_pop, h]

/-- C4 witness: a two-event push/pop interleaving on a concrete fresh
backend matches the FIFO, returns the events oldest first, and the empty
pop yields `none`. -/
theorem event_queue_fifo_witness :
    (({ events_queue := none, button_click_time := (0, 0),
        button_number := (-1, -1), button_x := (0, 0), button_y := (0, 0),
        double_click_time := 250, double_click_distance := 5 } :
          ClutterBackend).events_queue = none)
    ∧ ((runQueueOps
          [QueueOp.push zeroClutterEvent, QueueOp.pop,
           QueueOp.push { zeroClutterEvent with time := 1 }]
          { events_queue := none, button_click_time := (0, 0),
            button_number := (-1, -1), button_x := (0, 0), button_y := (0, 0),
            double_click_time := 250, double_click_distance := 5 }).2
        = (fifoRun
            [QueueOp.push zeroClutterEvent, QueueOp.pop,
             QueueOp.push { zeroClutterEvent with time := 1 }] []).2)
    ∧ ((runQueueOps
          ([zeroClutterEvent, { zeroClutterEvent with time := 1 }].map QueueOp.push
            ++ List.replicate
                [zeroClutterEvent, { zeroClutterEvent with time := 1 }].length
                QueueOp.pop)
          { events_queue := none, button_click_time := (0, 0),
            button_number := (-1, -1), button_x := (0, 0), button_y := (0, 0),
            double_click_time := 250, double_click_distance := 5 }).2
        = [some zeroClutterEvent, some { zeroClutterEvent with time := 1 }])
    ∧ ((_clutter_event_queue_pop
          { events_queue := none, button_click_time := (0, 0),
            button_number := (-1, -1), button_x := (0, 0), button_y := (0, 0),
            double_click_time := 250, double_click_distance := 5 }).1 = none) :=
  ⟨rfl,
   event_queue_fifo.1 _ _ rfl,
   event_queue_fifo.2.1 _ _ rfl,
   event_queue_fifo.2.2 _ (Or.inl rfl)⟩

/-- On any window inside the table bounds, the search loop falls out with 0
when the key matches no table entry. -/
theorem keysym_loop_miss (tab : Array (Nat × Nat)) (keyval : Nat)
    (hmiss : ∀ i : Nat, i < tab.size → (tab.getD i (0, 0)).1 ≠ keyval) :
    ∀ (n : Nat) (lo hi : Int), (hi + 1 - lo).toNat ≤ n → 0 ≤ lo →
      hi < (tab.size : Int) →
      keysym_to_unicode_loop tab keyval lo hi = 0 := by
  intro n
  induction n with
  | zero =>
      intro lo hi hn hlo hhi
      unfold keysym_to_unicode_loop
      rw [dif_neg (by omega)]
  | succ n ih =>
      intro lo hi hn hlo hhi
      unfold keysym_to_unicode_loop
      by_cases hwin : hi ≥ lo
      · rw [dif_pos hwin]
        show (if (tab.getD ((lo + hi) / 2).toNat (0, 0)).1 < keyval then
                keysym_to_unicode_loop tab keyval ((lo + hi) / 2 + 1) hi
              else if keyval < (tab.getD ((lo + hi) / 2).toNat (0, 0)).1 then
                keysym_to_unicode_loop tab keyval lo ((lo + hi) / 2 - 1)
              else (tab.getD ((lo + hi) / 2).toNat (0, 0)).2) = 0
        have hmidn : ((lo + hi) / 2).toNat < tab.size := by omega
        have hne := hmiss ((lo + hi) / 2).toNat hmidn
        by_cases hlt : (tab.getD ((lo + hi) / 2).toNat (0, 0)).1 < keyval
        · rw [if_pos hlt]
          exact ih ((lo + hi) / 2 + 1) hi (by omega) (by omega) hhi
        · rw [if_neg hlt, if_pos (by omega)]
          exact ih lo ((lo + hi) / 2 - 1) (by omega) hlo (by omega)
      · rw [dif_neg hwin]

/-- On any window inside the table bounds that contains an index holding
the key, the search loop returns that entry's unicode value (strict
sortedness makes the probe comparisons steer correctly). -/
theorem keysym_loop_hit (tab : Array (Nat × Nat)) (keyval : Nat)
    (hsorted : KeysymTableSorted tab) :
    ∀ (n : Nat) (lo hi : Int) (i : Nat), (hi + 1 - lo).toNat ≤ n → 0 ≤ lo →
      hi < (tab.size : Int) → lo ≤ (i : Int) → (i : Int) ≤ hi →
      (tab.getD i (0, 0)).1 = keyval →
      keysym_to_unicode_loop tab keyval lo hi = (tab.getD i (0, 0)).2 := by
  intro n
  induction n with
  | zero =>
      intro lo hi i hn hlo hhi hloi hihi hkey
      exact absurd hn (by omega)
  | succ n ih =>
      intro lo hi i hn hlo hhi hloi hihi hkey
      unfold keysym_to_unicode_loop
      have hwin : hi ≥ lo := by omega
      rw [dif_pos hwin]
      show (if (tab.getD ((lo + hi) / 2).toNat (0, 0)).1 < keyval then
              keysym_to_unicode_loop tab keyval ((lo + hi) / 2 + 1) hi
            else if keyval < (tab.getD ((lo + hi) / 2).toNat (0, 0)).1 then
              keysym_to_unicode_loop tab keyval lo ((lo + hi) / 2 - 1)
            else (tab.getD ((lo + hi) / 2).toNat (0, 0)).2)
          = (tab.getD i (0, 0)).2
      have hmidn : ((lo + hi) / 2).toNat < tab.size := by omega
      by_cases hlt : (tab.getD ((lo + hi) / 2).toNat (0, 0)).1 < keyval
      · rw [if_pos hlt]
        have hgt : ((lo + hi) / 2).toNat < i := by
          by_contra hle
          push_neg at hle
          rcases Nat.lt_or_ge i ((lo + hi) / 2).toNat with hc | hc
          · have := hsorted i ((lo + hi) / 2).toNat hc hmidn
            omega
          · have hceq : i = ((lo + hi) / 2).toNat := by omega
            rw [hceq] at hkey
            omega
        exact ih ((lo + hi) / 2 + 1) hi i (by omega) (by omega) hhi (by omega) hihi hkey
      · rw [if_neg hlt]
        by_cases hgt2 : keyval < (tab.getD ((lo + hi) / 2).toNat (0, 0)).1
        · rw [if_pos hgt2]
          have hlt2 : i < ((lo + hi) / 2).toNat := by
            by_contra hge
            push_neg at hge
            rcases Nat.lt_or_ge ((lo + hi) / 2).toNat i with hc | hc
            · have := hsorted ((lo + hi) / 2).toNat i hc (by omega)
              omega
            · have hceq : i = ((lo + hi) / 2).toNat := by omega
              rw [hceq] at hkey
              omega
          exact ih lo ((lo + hi) / 2 - 1) i (by omega) hlo (by omega) hloi (by omega) hkey
        · rw [if_neg hgt2]
          have heq : ((lo + hi) / 2).toNat = i := by
            rcases Nat.lt_trichotomy ((lo + hi) / 2).toNat i with hc | hc | hc
            · have := hsorted ((lo + hi) / 2).toNat i hc (by omega)
              omega
            · exact hc
            · have := hsorted i ((lo + hi) / 2).toNat hc hmidn
              omega
          rw [heq]

/-- C9: keysym→unicode lookup applies the Latin-1 fast path first (the
keysym itself), then the 24-bit direct-UCS fast path (the low 24 bits),
and only otherwise the binary search over the sorted static table, which
returns the matching entry's unicode value on a hit and 0 when no entry
matches. -/
theorem keysym_to_unicode_paths (tab : Array (Nat × Nat)) (keyval : Nat)
    (hsorted : KeysymTableSorted tab) :
    ((0x20 ≤ keyval ∧ keyval ≤ 0x7e) ∨ (0xa0 ≤ keyval ∧ keyval ≤ 0xff) →
      clutter_keysym_to_unicode tab keyval = keyval)
    ∧ (¬((0x20 ≤ keyval ∧ keyval ≤ 0x7e) ∨ (0xa0 ≤ keyval ∧ keyval ≤ 0xff)) →
       keyval &&& 0xff000000 = 0x01000000 →
       clutter_keysym_to_unicode tab keyval = keyval &&& 0x00ffffff)
    ∧ (¬((0x20 ≤ keyval ∧ keyval ≤ 0x7e) ∨ (0xa0 ≤ keyval ∧ keyval ≤ 0xff)) →
       keyval &&& 0xff000000 ≠ 0x01000000 →
       ((∀ i : Nat, i < tab.size → (tab.getD i (0, 0)).1 = keyval →
           clutter_keysym_to_unicode tab keyval = (tab.getD i (0, 0)).2)
        ∧ ((∀ i : Nat, i < tab.size → (tab.getD i (0, 0)).1 ≠ keyval) →
           clutter_keysym_to_unicode tab keyval = 0))) := by
  refine ⟨?_, ?_, ?_⟩
  · intro h
    simp [clutter_keysym_to_unicode, h]
  · intro h1 h2
    simp [clutter_keysym_to_unicode, h1, h2]
  · intro h1 h2
    constructor
    · intro i hi hk
      unfold clutter_keysym_to_unicode
      rw [if_neg h1, if_neg h2]
      exact keysym_loop_hit tab keyval hsorted tab.size 0 ((tab.size : Int) - 1) i
        (by omega) (by omega) (by omega) (by omega) (by omega) hk
    · intro hmiss
      unfold clutter_keysym_to_unicode
      rw [if_neg h1, if_neg h2]
      exact keysym_loop_miss tab keyval hmiss tab.size 0 ((tab.size : Int) - 1)
        (by omega) (by omega) (by omega)

/-- C9 witness: a concrete two-entry sorted table; keysym 300 (no fast
path applies) is found by the binary search with unicode value 42. -/
theorem keysym_to_unicode_paths_witness :
    KeysymTableSorted #[(71, 1), (300, 42)]
    ∧ clutter_keysym_to_unicode #[(71, 1), (300, 42)] 300 = 42 := by
  have hs : KeysymTableSorted #[(71, 1), (300, 42)] := by
    intro i j hij hj
    simp at hj
    interval_cases j <;> interval_cases i
    all_goals decide
  refine ⟨hs, ?_⟩
  exact ((keysym_to_unicode_paths #[(71, 1), (300, 42)] 300 hs).2.2
    (by decide) (by decide)).1 1 (by decide) (by decide)
